import Mathlib

/-!
# Agriinsight backend: authentication, session cookie and data feeds

A shallow embedding of `Agriinsight-backend/server.js`.

* Express handlers are total functions from a request (and, where the handler
  touches the database, the store) to a response.  A `try { .. } catch` block is
  a computation in `Except JsError` whose failure is mapped by the `catch` arm.
* The clock (`Date.now()`), the salt drawn by `bcrypt.hash` and the stream of
  `Math.random()` values are explicit inputs (`Env`).
* A JSON web token is modelled symbolically, as a term carrying its claims and
  the key and claims its tag was computed from; `jsonwebtoken` counts time in
  whole seconds, which is kept.
* The digest function of bcrypt is a parameter of which nothing is assumed;
  `bcrypt` reads only the first 72 bytes of its input, which is kept.
* Numbers produced by the data feeds are rationals; floating-point rounding is
  not modelled.
-/

namespace Agriinsight

/-! ## JavaScript errors -/

/-- A thrown JavaScript error: its message and its `code` property (set by the
MySQL driver, absent on every other error). -/
structure JsError where
  message : String
  code : Option String
deriving DecidableEq, Repr

deriving instance DecidableEq for Except

/-! ## jsonwebtoken (symbolic) -/

/-- Claims of a session token: `id` from the handler, `iat` and `exp` added by
`jwt.sign` (NumericDate: whole seconds since the epoch). -/
structure JwtPayload where
  id : Nat
  iat : Int
  exp : Option Int
deriving DecidableEq, Repr

/-- The value of a cookie as the server reads it: either text that is not a
well-formed JWS, or a JWS with its claims and an HS256 tag, the tag being
determined by the key and the claims it was computed from. -/
inductive CookieValue where
  | text (s : String)
  | jws (claims : JwtPayload) (tagKey : String) (tagClaims : JwtPayload)
deriving DecidableEq, Repr

/-- Milliseconds denoted by the time span `'1h'`. -/
def oneHourMs : Int := 3600000

/-- The call `jwt.sign({ id }, secret, { expiresIn: '1h' })` evaluated when
`Date.now()` reads `now`: `iat` is the clock in whole seconds and `exp` lies
one hour of seconds after it. -/
def jwtSign (id : Nat) (secret : String) (now : Int) : CookieValue :=
  let iat := now / 1000
  let claims : JwtPayload := { id := id, iat := iat, exp := some (iat + oneHourMs / 1000) }
  .jws claims secret claims

/-- The call `jwt.verify(token, secret, cb)` evaluated when `Date.now()` reads
`now`: the tag is checked first, then the expiry against the clock in whole
seconds (`clockTimestamp >= payload.exp` is the expired case). -/
def jwtVerify (token : CookieValue) (secret : String) (now : Int) : Except JsError JwtPayload :=
  match token with
  | .text _ => .error { message := "jwt malformed", code := none }
  | .jws claims tagKey tagClaims =>
    if tagKey = secret ∧ tagClaims = claims then
      match claims.exp with
      | some exp =>
        if now / 1000 ≥ exp then .error { message := "jwt expired", code := none }
        else .ok claims
      | none => .ok claims
    else .error { message := "invalid signature", code := none }

/-! ## bcrypt -/

/-- The bytes bcrypt reads from a password: the first 72 bytes of its UTF-8
encoding. -/
def key72 (password : String) : List UInt8 :=
  (password.data.flatMap String.utf8EncodeChar).take 72

/-- The bcrypt primitive, a parameter of the model: the digest it computes
from a cost, a salt and the key bytes.  Nothing is assumed of it. -/
structure Bcrypt where
  digest : Nat → Nat → List UInt8 → List UInt8

/-- The `password` column of a row: a bcrypt hash, which records its cost and
its salt next to the digest, or text that is no bcrypt hash. -/
inductive PasswordHash where
  | text (s : String)
  | bcrypt (rounds : Nat) (salt : Nat) (digest : List UInt8)
deriving DecidableEq, Repr

/-- The call `bcrypt.hash(password, rounds)` with the salt it draws; rejects
when the data is not a string. -/
def bcryptHash (bc : Bcrypt) (password : Option String) (rounds : Nat) (salt : Nat) :
    Except JsError PasswordHash :=
  match password with
  | none => .error { message := "data and salt arguments required", code := none }
  | some p => .ok (.bcrypt rounds salt (bc.digest rounds salt (key72 p)))

/-- The call `bcrypt.compareSync(password, hash)`: throws when the data is not a
string, is false on a malformed hash, and otherwise hashes the data under the
cost and salt of `hash` and compares the digests. -/
def compareSync (bc : Bcrypt) (password : Option String) (hash : PasswordHash) :
    Except JsError Bool :=
  match password with
  | none => .error { message := "data and hash arguments required", code := none }
  | some p =>
    match hash with
    | .text _ => .ok false
    | .bcrypt rounds salt digest => .ok (decide (bc.digest rounds salt (key72 p) = digest))

/-! ## Requests and responses -/

/-- The fields the handlers read from `req.body`; `none` is `undefined`. -/
structure Body where
  username : Option String
  password : Option String
  email : Option String
deriving DecidableEq, Repr

/-- The fields the handlers read from `req.query`; `none` is `undefined`. -/
structure Query where
  days : Option String
  crop : Option String
deriving DecidableEq, Repr

/-- An Express request: the parsed cookies (in header order), the JSON body,
the query string, and the `userId` property that `verifyToken` adds. -/
structure Request where
  cookies : List (String × CookieValue)
  body : Body
  query : Query
  userId : Option Nat
deriving DecidableEq, Repr

/-- The options object passed to `res.cookie`. -/
structure CookieOptions where
  httpOnly : Bool
  secure : Bool
  sameSite : Option String
  maxAge : Option Int
  expires : Option Int
  path : String
deriving DecidableEq, Repr

/-- One `Set-Cookie` of a response. -/
structure SetCookie where
  name : String
  value : CookieValue
  options : CookieOptions
deriving DecidableEq, Repr

/-- A calendar date of the proleptic Gregorian calendar. -/
structure CivilDate where
  year : Int
  month : Int
  day : Int
deriving DecidableEq, Repr

/-- The JSON bodies the handlers send. -/
inductive Payload where
  | message (text : String)
  | error (text : String)
  | weather (dates : List CivilDate) (temperatures : List ℚ) (rainfall : List ℚ)
  | yield (cropType : Option String) (dates : List CivilDate) (yieldValues : List ℚ)
  | soil (nutrients : List String) (levels : List ℚ)
  | marketPrices (prices : List (String × ℚ))
deriving DecidableEq

/-- An Express response: status (200 unless `res.status` was called), JSON
body, and the cookies set on it. -/
structure Response where
  status : Nat
  body : Payload
  setCookies : List SetCookie
deriving DecidableEq

/-- The `dates` member of the body of a response, empty when it has none. -/
def Response.dates (res : Response) : List CivilDate :=
  match res.body with
  | .weather dates _ _ => dates
  | .yield _ dates _ => dates
  | _ => []

/-- The catch arm shared by the handlers. -/
def internalError : Response :=
  { status := 500, body := .error "Internal server error", setCookies := [] }

/-- The call `res.cookie('auth_token', token, { httpOnly: true, secure: true,
sameSite: 'strict', maxAge: 3600000 })`; Express adds the path `/`. -/
def authCookie (token : CookieValue) : SetCookie :=
  { name := "auth_token", value := token,
    options := { httpOnly := true, secure := true, sameSite := some "strict",
                 maxAge := some 3600000, expires := none, path := "/" } }

/-- The call `res.clearCookie(name)`: Express sends the cookie with an empty
value, the path `/` and an expiry of one millisecond after the epoch. -/
def clearCookie (name : String) : SetCookie :=
  { name := name, value := .text "",
    options := { httpOnly := false, secure := false, sameSite := none,
                 maxAge := none, expires := some 1, path := "/" } }

/-! ## verifyToken -/

/-- JavaScript falsiness of a cookie value: the empty string is falsy, every
other string is truthy. -/
def falsy : CookieValue → Bool
  | .text s => decide (s = "")
  | .jws _ _ _ => false

/-- What a middleware does with a request: end it with a response, or call
`next()` with the request it has annotated. -/
inductive Middleware where
  | responded (res : Response)
  | next (req : Request)
deriving DecidableEq

/-- The middleware `verifyToken`; `now` is the clock read by `jwt.verify`.
The guard `!token` holds when the cookie is absent (`undefined`) and when its
value is falsy. -/
def verifyToken (secret : String) (now : Int) (req : Request) : Middleware :=
  match req.cookies.lookup "auth_token" with
  | none => .responded { status := 403, body := .error "No token provided", setCookies := [] }
  | some token =>
    if falsy token then
      .responded { status := 403, body := .error "No token provided", setCookies := [] }
    else
      match jwtVerify token secret now with
      | .error _ => .responded { status := 401, body := .error "Unauthorized", setCookies := [] }
      | .ok decoded => .next { req with userId := some decoded.id }

/-! ## The users table -/

/-- A row of `users` as the handlers read it (`created_at` is never read). -/
structure User where
  id : Nat
  username : String
  password : PasswordHash
  email : String
deriving DecidableEq, Repr

/-- The two statements the handlers send through `pool.query`, over a store of
type `σ`: the lookup by username and the insertion of a row.  A statement
either succeeds or throws; a statement that throws leaves the store as it was. -/
structure Pool (σ : Type) where
  selectByUsername : σ → Option String → Except JsError (List User)
  insertUser : σ → Option String → PasswordHash → Option String → Except JsError σ

/-- A key for a new row: larger than every key in use (`AUTO_INCREMENT`). -/
def freshId (rows : List User) : Nat :=
  (rows.map (fun r => r.id)).foldr max 0 + 1

/-- The table created by `initializeDatabase`, as a list of rows in insertion
order: `username` and `email` are `UNIQUE NOT NULL`.  A parameter that is
`undefined` is sent as `NULL`; comparison is equality of strings; column widths
are not modelled. -/
def usersPool : Pool (List User) where
  selectByUsername rows username :=
    match username with
    | none => .ok []
    | some u => .ok (rows.filter (fun r => decide (r.username = u)))
  insertUser rows username hash email :=
    match username, email with
    | some u, some e =>
      if rows.any (fun r => decide (r.username = u) || decide (r.email = e)) then
        .error { message := "Duplicate entry", code := some "ER_DUP_ENTRY" }
      else
        .ok (rows ++ [{ id := freshId rows, username := u, password := hash, email := e }])
    | _, _ => .error { message := "Column cannot be null", code := some "ER_BAD_NULL_ERROR" }

/-! ## Authentication handlers -/

/-- The body of the `try` block of `POST /auth/login`. -/
def loginAttempt {σ : Type} (bc : Bcrypt) (pool : Pool σ) (secret : String) (now : Int)
    (db : σ) (req : Request) : Except JsError Response :=
  match pool.selectByUsername db req.body.username with
  | .error e => .error e
  | .ok rows =>
    match rows.head? with
    | none => .ok { status := 401, body := .error "Invalid credentials", setCookies := [] }
    | some user =>
      match compareSync bc req.body.password user.password with
      | .error e => .error e
      | .ok true =>
        .ok { status := 200, body := .message "Logged in successfully",
              setCookies := [authCookie (jwtSign user.id secret now)] }
      | .ok false => .ok { status := 401, body := .error "Invalid credentials", setCookies := [] }

/-- The handler of `POST /auth/login`; `now` is the clock read by `jwt.sign`. -/
def login {σ : Type} (bc : Bcrypt) (pool : Pool σ) (secret : String) (now : Int) (db : σ)
    (req : Request) : Response :=
  match loginAttempt bc pool secret now db req with
  | .ok res => res
  | .error _ => internalError

/-- The catch arm of `POST /auth/register`. -/
def registerCatch (e : JsError) : Response :=
  if e.code = some "ER_DUP_ENTRY" then
    { status := 409, body := .error "Username or email already exists", setCookies := [] }
  else internalError

/-- The handler of `POST /auth/register`, with the salt `bcrypt.hash` draws;
returns the response and the store after the request. -/
def register {σ : Type} (bc : Bcrypt) (pool : Pool σ) (salt : Nat) (db : σ) (req : Request) :
    Response × σ :=
  match bcryptHash bc req.body.password 10 salt with
  | .error e => (registerCatch e, db)
  | .ok hashedPassword =>
    match pool.insertUser db req.body.username hashedPassword req.body.email with
    | .error e => (registerCatch e, db)
    | .ok db2 =>
      ({ status := 201, body := .message "User registered successfully", setCookies := [] }, db2)

/-- The handler of `POST /auth/logout`. -/
def logout (_req : Request) : Response :=
  { status := 200, body := .message "Logged out successfully",
    setCookies := [clearCookie "auth_token"] }

/-! ## Built-ins used by the data feeds -/

/-- The white space and line terminators that `parseInt` skips. -/
def isStrWhiteSpace (c : Char) : Bool :=
  let n := c.toNat
  n = 0x09 || n = 0x0A || n = 0x0B || n = 0x0C || n = 0x0D || n = 0x20 || n = 0xA0 ||
  n = 0x1680 || (0x2000 ≤ n && n ≤ 0x200A) || n = 0x2028 || n = 0x2029 || n = 0x202F ||
  n = 0x205F || n = 0x3000 || n = 0xFEFF

/-- The value of a character as a digit, letters counting from ten. -/
def digitValue (c : Char) : Option Nat :=
  let n := c.toNat
  if 48 ≤ n ∧ n ≤ 57 then some (n - 48)
  else if 97 ≤ n ∧ n ≤ 122 then some (n - 97 + 10)
  else if 65 ≤ n ∧ n ≤ 90 then some (n - 65 + 10)
  else none

/-- The longest leading run of digits of the given radix, as digit values. -/
def leadingDigits (radix : Nat) : List Char → List Nat
  | [] => []
  | c :: cs =>
    match digitValue c with
    | some v => if v < radix then v :: leadingDigits radix cs else []
    | none => []

/-- The sign of the text and the text after the sign. -/
def splitSign : List Char → Bool × List Char
  | '-' :: cs => (true, cs)
  | '+' :: cs => (false, cs)
  | cs => (false, cs)

/-- The radix of the text and the text after a hexadecimal mark. -/
def splitRadix : List Char → Nat × List Char
  | '0' :: 'x' :: cs => (16, cs)
  | '0' :: 'X' :: cs => (16, cs)
  | cs => (10, cs)

/-- The built-in `parseInt(value)` without a radix argument, on `undefined` or
a string; `none` is `NaN`.  The result is the integer the digits denote, also
beyond the range in which JavaScript numbers are exact. -/
def parseInt (value : Option String) : Option Int :=
  let input := match value with
    | none => "undefined"
    | some s => s
  let trimmed := input.data.dropWhile isStrWhiteSpace
  let signed := splitSign trimmed
  let based := splitRadix signed.2
  let digits := leadingDigits based.1 based.2
  if digits.isEmpty then none
  else
    let magnitude : Nat := digits.foldl (fun acc v => acc * based.1 + v) 0
    some (if signed.1 then -(magnitude : Int) else (magnitude : Int))

/-- The length of `Array(len)`: a `RangeError` unless `len` is an integer in
the range of array lengths. -/
def arrayLength (len : Option Int) : Except JsError Nat :=
  match len with
  | none => .error { message := "Invalid array length", code := none }
  | some n =>
    if 0 ≤ n ∧ n < 4294967296 then .ok n.toNat
    else .error { message := "Invalid array length", code := none }

/-- Evaluate a callback that may throw at each element of a list, in order. -/
def mapThrowing {α β : Type} (f : α → Except JsError β) : List α → Except JsError (List β)
  | [] => .ok []
  | a :: as =>
    match f a with
    | .error e => .error e
    | .ok b =>
      match mapThrowing f as with
      | .error e => .error e
      | .ok bs => .ok (b :: bs)

/-- Milliseconds in a day. -/
def msPerDay : Int := 86400000

/-- The largest time value a `Date` holds, in milliseconds either side of the
epoch. -/
def maxTime : Int := 8640000000000000

/-- For a count `z` of days since 1 March of year 0: the year beginning on a
1 March in which the day lies, and the day within that year.  The count is
split into cycles of 400 years, centuries, groups of four years and years. -/
def marchYear (z : Int) : Int × Int :=
  let era := z / 146097
  let doe := z % 146097
  let c := if doe / 36524 < 3 then doe / 36524 else 3
  let doc := doe - c * 36524
  let q := doc / 1461
  let doq := doc % 1461
  let a := if doq / 365 < 3 then doq / 365 else 3
  (era * 400 + c * 100 + q * 4 + a, doq - a * 365)

/-- The date of day `doy` of the year that begins on 1 March of year `y`. -/
def civilOfMarch (y doy : Int) : CivilDate :=
  let mp := (5 * doy + 2) / 153
  let month := if mp < 10 then mp + 3 else mp - 9
  { year := y + (if month ≤ 2 then 1 else 0), month := month,
    day := doy - (153 * mp + 2) / 5 + 1 }

/-- The date of the day `d` days after 1 January 1970. -/
def civilOfDay (d : Int) : CivilDate :=
  let p := marchYear (d + 719468)
  civilOfMarch p.1 p.2

/-- The UTC calendar date of a time value. -/
def utcDate (t : Int) : CivilDate :=
  civilOfDay (t / msPerDay)

/-- The expression `new Date(t).toISOString().split('T')[0]`: the UTC date of
`t`, or a `RangeError` when `t` is outside the range of `Date`. -/
def isoDate (t : Int) : Except JsError CivilDate :=
  if -maxTime ≤ t ∧ t ≤ maxTime then .ok (utcDate t)
  else .error { message := "Invalid time value", code := none }

/-! ## Data feeds -/

/-- What a data handler reads from its surroundings: `clock k` is the value of
the `k`-th call of `Date.now()` made while the handler runs and `random k` the
value of its `k`-th call of `Math.random()`, both counted from zero. -/
structure Env where
  clock : Nat → Int
  random : Nat → ℚ

/-- The array `[...Array(parseInt(days))].map((_, i) => new Date(Date.now() +
i * 86400000).toISOString().split('T')[0])`; each element reads the clock. -/
def dateSeries (env : Env) (days : Option String) : Except JsError (List CivilDate) :=
  match arrayLength (parseInt days) with
  | .error e => .error e
  | .ok n => mapThrowing (fun i => isoDate (env.clock i + (i : Int) * msPerDay)) (List.range n)

/-- The array `[...Array(parseInt(days))].map(() => Math.random() * scale +
offset)`, the first draw being the one numbered `start`. -/
def randomSeries (env : Env) (days : Option String) (start : Nat) (scale offset : ℚ) :
    Except JsError (List ℚ) :=
  match arrayLength (parseInt days) with
  | .error e => .error e
  | .ok n => .ok ((List.range n).map (fun i => env.random (start + i) * scale + offset))

/-- The body of the `try` block of `GET /weather`. -/
def weatherData (env : Env) (req : Request) : Except JsError Payload :=
  match dateSeries env req.query.days with
  | .error e => .error e
  | .ok dates =>
    match randomSeries env req.query.days 0 30 10 with
    | .error e => .error e
    | .ok temperatures =>
      match randomSeries env req.query.days temperatures.length 50 0 with
      | .error e => .error e
      | .ok rainfall => .ok (.weather dates temperatures rainfall)

/-- The handler of `GET /weather`. -/
def weather (env : Env) (req : Request) : Response :=
  match weatherData env req with
  | .ok data => { status := 200, body := data, setCookies := [] }
  | .error _ => internalError

/-- The body of the `try` block of `GET /yield`. -/
def yieldData (env : Env) (req : Request) : Except JsError Payload :=
  match dateSeries env req.query.days with
  | .error e => .error e
  | .ok dates =>
    match randomSeries env req.query.days 0 100 50 with
    | .error e => .error e
    | .ok yieldValues => .ok (.yield req.query.crop dates yieldValues)

/-- The handler of `GET /yield`. -/
def yieldFeed (env : Env) (req : Request) : Response :=
  match yieldData env req with
  | .ok data => { status := 200, body := data, setCookies := [] }
  | .error _ => internalError

/-- The handler of `GET /soil`; nothing in its `try` block throws. -/
def soil (env : Env) (_req : Request) : Response :=
  { status := 200,
    body := .soil ["Nitrogen", "Phosphorus", "Potassium", "pH", "Organic Matter"]
      [env.random 0 * 100, env.random 1 * 100, env.random 2 * 100, env.random 3 * 14,
       env.random 4 * 10],
    setCookies := [] }

/-- The handler of `GET /market-prices`; nothing in its `try` block throws. -/
def marketPrices (env : Env) (_req : Request) : Response :=
  { status := 200,
    body := .marketPrices [("Wheat", env.random 0 * 10 + 5), ("Corn", env.random 1 * 8 + 3),
      ("Soybeans", env.random 2 * 15 + 8)],
    setCookies := [] }

/-- The four routes guarded by `verifyToken`. -/
inductive Endpoint where
  | weather
  | yield
  | soil
  | marketPrices
deriving DecidableEq, Repr

/-- The data handler registered for an endpoint. -/
def dataHandler : Endpoint → Env → Request → Response
  | .weather => weather
  | .yield => yieldFeed
  | .soil => soil
  | .marketPrices => marketPrices

/-- A guarded route `app.get(path, verifyToken, handler)`: the handler runs on
the request passed to `next()`, and only when `verifyToken` calls it. -/
def guarded (ep : Endpoint) (secret : String) (now : Int) (env : Env) (req : Request) :
    Response :=
  match verifyToken secret now req with
  | .responded res => res
  | .next req2 => dataHandler ep env req2

/-! ## The client's cookie store -/

/-- Whether a cookie is already expired when a client whose clock reads `now`
receives it. -/
def expiredAt (now : Int) (c : SetCookie) : Bool :=
  (match c.options.expires with
    | some e => decide (e ≤ now)
    | none => false) ||
  (match c.options.maxAge with
    | some m => decide (m ≤ 0)
    | none => false)

/-- A client stores a cookie it receives: the cookie replaces the one of the
same name, and an expired cookie only removes it. -/
def storeCookie (now : Int) (jar : List (String × CookieValue)) (c : SetCookie) :
    List (String × CookieValue) :=
  let others := jar.filter (fun kv => decide (kv.1 ≠ c.name))
  if expiredAt now c then others else (c.name, c.value) :: others

/-- The cookie store of a client after it has received a response. -/
def receive (now : Int) (jar : List (String × CookieValue)) (res : Response) :
    List (String × CookieValue) :=
  res.setCookies.foldl (storeCookie now) jar

/-! ## The server -/

/-- The routes of the application. -/
inductive Route where
  | login
  | register
  | logout
  | feed (ep : Endpoint)
deriving DecidableEq, Repr

/-- One request served: the response and the store after it.  `now` is the
clock read by `jsonwebtoken`, `salt` the salt drawn by `bcrypt.hash`.  Only
the register handler writes to the store. -/
def serve {σ : Type} (bc : Bcrypt) (pool : Pool σ) (secret : String) (now : Int) (salt : Nat)
    (env : Env) (route : Route) (db : σ) (req : Request) : Response × σ :=
  match route with
  | .login => (login bc pool secret now db req, db)
  | .register => register bc pool salt db req
  | .logout => (logout req, db)
  | .feed ep => (guarded ep secret now env req, db)

/-! ## Sample data -/

/-- A request with no cookie, no body field and no query parameter. -/
def emptyRequest : Request :=
  { cookies := [], body := { username := none, password := none, email := none },
    query := { days := none, crop := none }, userId := none }

/-- A login request. -/
def loginRequest (username password : String) : Request :=
  { emptyRequest with
    body := { username := some username, password := some password, email := none } }

/-- A registration request. -/
def registerRequest (username password email : String) : Request :=
  { emptyRequest with
    body := { username := some username, password := some password, email := some email } }

/-- A request to a data feed carrying the given cookies and `days` parameter. -/
def feedRequest (cookies : List (String × CookieValue)) (days : Option String) : Request :=
  { emptyRequest with cookies := cookies, query := { days := days, crop := some "wheat" } }

/-- A stand-in for the bcrypt primitive in examples: the digest is the key. -/
def plainBcrypt : Bcrypt := { digest := fun _ _ key => key }

/-- A row for the user `alice` with password `pw1`. -/
def aliceRow : User :=
  { id := 1, username := "alice",
    password := .bcrypt 10 7 (plainBcrypt.digest 10 7 (key72 "pw1")), email := "a@x.com" }

/-- Surroundings in which the clock stands at the epoch and every draw is one half. -/
def stillEnv : Env := { clock := fun _ => 0, random := fun _ => 1 / 2 }

/-- When `verifyToken` calls `next()`, the request it passes on is the one it
received with `userId` set. -/
theorem verifyToken_next (secret : String) (now : Int) (req req2 : Request)
    (h : verifyToken secret now req = .next req2) :
    ∃ uid, req2 = { req with userId := some uid } := by
  unfold verifyToken at h
  cases hl : req.cookies.lookup "auth_token" with
  | none => simp [hl] at h
  | some token =>
    simp only [hl] at h
    by_cases hf : falsy token = true
    · simp [hf] at h
    · simp only [hf] at h
      cases hv : jwtVerify token secret now with
      | error e => simp [hv] at h
      | ok decoded =>
        simp only [hv] at h
        exact ⟨decoded.id, by simpa using h.symm⟩

/-- A guarded route whose request passes `verifyToken` answers with its data
handler, which reads the query of the request as it was received. -/
theorem guarded_of_next (ep : Endpoint) (secret : String) (now : Int) (env : Env)
    (req req2 : Request) (h : verifyToken secret now req = .next req2) :
    guarded ep secret now env req = dataHandler ep env req2 ∧ req2.query = req.query := by
  obtain ⟨uid, rfl⟩ := verifyToken_next secret now req req2 h
  simp [guarded, h]

/-- C1, as the code has it: on each of the four guarded routes, a request with
no `auth_token` cookie, or with one whose value is the empty string, is
answered 403 `No token provided` without the data handler being called; a
request whose cookie has a non-empty value that `jwt.verify` rejects is
answered 401 `Unauthorized` without the data handler being called; a request
whose cookie `jwt.verify` accepts reaches the data handler with `userId` set to
the `id` claim of the decoded token; and the data handler is reached in no
other case. -/
theorem verifyToken_cases (ep : Endpoint) (secret : String) (now : Int) (env : Env)
    (req : Request) :
    ((req.cookies.lookup "auth_token" = none ∨
        req.cookies.lookup "auth_token" = some (.text "")) →
      verifyToken secret now req
          = .responded { status := 403, body := .error "No token provided", setCookies := [] } ∧
        guarded ep secret now env req
          = { status := 403, body := .error "No token provided", setCookies := [] }) ∧
    (∀ token e, req.cookies.lookup "auth_token" = some token → token ≠ .text "" →
        jwtVerify token secret now = .error e →
      verifyToken secret now req
          = .responded { status := 401, body := .error "Unauthorized", setCookies := [] } ∧
        guarded ep secret now env req
          = { status := 401, body := .error "Unauthorized", setCookies := [] }) ∧
    (∀ token decoded, req.cookies.lookup "auth_token" = some token →
        jwtVerify token secret now = .ok decoded →
      verifyToken secret now req = .next { req with userId := some decoded.id } ∧
        guarded ep secret now env req
          = dataHandler ep env { req with userId := some decoded.id }) ∧
    (∀ req2, verifyToken secret now req = .next req2 →
      ∃ token decoded, req.cookies.lookup "auth_token" = some token ∧
        jwtVerify token secret now = .ok decoded ∧
        req2 = { req with userId := some decoded.id }) := by
  refine ⟨?_, ?_, ?_, ?_⟩
  · rintro (h | h) <;> simp [verifyToken, guarded, h, falsy]
  · intro token e hl hne hv
    have hf : falsy token = false := by
      cases token with
      | text s =>
        have : s ≠ "" := fun hs => hne (by rw [hs])
        simp [falsy, this]
      | jws c k t => rfl
    simp [verifyToken, guarded, hl, hf, hv]
  · intro token decoded hl hv
    have hf : falsy token = false := by
      cases token with
      | text s => simp [jwtVerify] at hv
      | jws c k t => rfl
    simp [verifyToken, guarded, hl, hf, hv]
  · intro req2 h
    unfold verifyToken at h
    cases hl : req.cookies.lookup "auth_token" with
    | none => simp [hl] at h
    | some token =>
      simp only [hl] at h
      by_cases hf : falsy token = true
      · simp [hf] at h
      · simp only [hf] at h
        cases hv : jwtVerify token secret now with
        | error e => simp [hv] at h
        | ok decoded =>
          simp only [hv] at h
          refine ⟨token, decoded, rfl, hv, ?_⟩
          simpa using h.symm

/-- C1, instances: a request without the cookie is answered 403, one whose
cookie is text that is no token is answered 401, and one whose cookie is a
token signed with the secret reaches the weather handler. -/
theorem verifyToken_cases_witness :
    ((feedRequest [] none).cookies.lookup "auth_token" = none ∧
      guarded .weather "secret" 0 stillEnv (feedRequest [] none)
        = { status := 403, body := .error "No token provided", setCookies := [] }) ∧
    (jwtVerify (.text "garbage") "secret" 0
        = .error { message := "jwt malformed", code := none } ∧
      guarded .weather "secret" 0 stillEnv (feedRequest [("auth_token", .text "garbage")] none)
        = { status := 401, body := .error "Unauthorized", setCookies := [] }) ∧
    (jwtVerify (jwtSign 1 "secret" 0) "secret" 0
        = .ok { id := 1, iat := 0, exp := some 3600 } ∧
      verifyToken "secret" 0 (feedRequest [("auth_token", jwtSign 1 "secret" 0)] none)
        = .next { feedRequest [("auth_token", jwtSign 1 "secret" 0)] none with
                  userId := some 1 }) :=
  ⟨⟨rfl, ((verifyToken_cases .weather "secret" 0 stillEnv (feedRequest [] none)).1
      (Or.inl rfl)).2⟩,
   ⟨by decide, ((verifyToken_cases .weather "secret" 0 stillEnv
      (feedRequest [("auth_token", .text "garbage")] none)).2.1 (.text "garbage")
      { message := "jwt malformed", code := none } rfl (by decide) (by decide)).2⟩,
   ⟨by decide, ((verifyToken_cases .weather "secret" 0 stillEnv
      (feedRequest [("auth_token", jwtSign 1 "secret" 0)] none)).2.2.1 (jwtSign 1 "secret" 0)
      { id := 1, iat := 0, exp := some 3600 } rfl (by decide)).1⟩⟩

/-- C1, as stated, fails: a request to `/weather` whose `auth_token` cookie is
present with an empty value, which `jwt.verify` rejects, is answered 403 and
not 401. -/
theorem empty_cookie_forbidden :
    (feedRequest [("auth_token", .text "")] (some "5")).cookies.lookup "auth_token"
        = some (.text "") ∧
      jwtVerify (.text "") "secret" 0 = .error { message := "jwt malformed", code := none } ∧
      guarded .weather "secret" 0 stillEnv (feedRequest [("auth_token", .text "")] (some "5"))
        = { status := 403, body := .error "No token provided", setCookies := [] } := by
  decide

/-! ## Login -/

/-- A login request without a string password: `bcrypt.compareSync` is not
reached when the lookup returns no row, and throws when it returns one. -/
theorem login_without_password {σ : Type} (bc : Bcrypt) (pool : Pool σ) (secret : String)
    (now : Int) (db : σ) (req : Request) (rows : List User)
    (hsel : pool.selectByUsername db req.body.username = .ok rows)
    (hpw : req.body.password = none) :
    login bc pool secret now db req
      = if rows.isEmpty then
          { status := 401, body := .error "Invalid credentials", setCookies := [] }
        else internalError := by
  cases rows with
  | nil => simp [login, loginAttempt, hsel]
  | cons user rest => simp [login, loginAttempt, hsel, hpw, compareSync]

/-- Every cookie the login handler sets is the session cookie for a token it
signed at that moment. -/
theorem login_cookie {σ : Type} (bc : Bcrypt) (pool : Pool σ) (secret : String) (now : Int)
    (db : σ) (req : Request) (c : SetCookie)
    (hc : c ∈ (login bc pool secret now db req).setCookies) :
    ∃ uid, c = authCookie (jwtSign uid secret now) := by
  unfold login loginAttempt at hc
  cases hsel : pool.selectByUsername db req.body.username with
  | error e => simp [hsel, internalError] at hc
  | ok rows =>
    cases hrow : rows.head? with
    | none => simp [hsel, hrow] at hc
    | some user =>
      cases hcmp : compareSync bc req.body.password user.password with
      | error e => simp [hsel, hrow, hcmp, internalError] at hc
      | ok b =>
        cases b with
        | false => simp [hsel, hrow, hcmp] at hc
        | true =>
          simp only [hsel, hrow, hcmp, List.mem_singleton] at hc
          exact ⟨user.id, hc⟩

/-- What `verifyToken` does with a token signed at `issued` when the clock
reads `t`. -/
theorem verifyToken_signed (secret : String) (issued t : Int) (uid : Nat) (req : Request)
    (h : req.cookies.lookup "auth_token" = some (jwtSign uid secret issued)) :
    verifyToken secret t req =
      if t / 1000 < issued / 1000 + 3600 then .next { req with userId := some uid }
      else .responded { status := 401, body := .error "Unauthorized", setCookies := [] } := by
  by_cases ht : t / 1000 < issued / 1000 + 3600
  · have hge : ¬ (issued / 1000 + 3600 ≤ t / 1000) := by omega
    simp [verifyToken, h, jwtSign, jwtVerify, falsy, oneHourMs, ht, hge]
  · have hge : issued / 1000 + 3600 ≤ t / 1000 := by omega
    simp [verifyToken, h, jwtSign, jwtVerify, falsy, oneHourMs, ht, hge]

/-- C4, as the code has it: a token set by the login handler when the clock
reads `issued` (milliseconds) expires at the whole second of `issued` plus 3600
seconds.  Presented to `verifyToken` with the same secret when the clock reads
`t`, it is accepted exactly when the whole second of `t` lies before that
expiry, hence at every `t` up to `issued` + 3599000 ms (so at 59 minutes), and
it is rejected with 401 `Unauthorized` from that expiry on, hence at every `t`
from `issued` + 3600000 ms on (so at 61 minutes). -/
theorem session_token_lifetime {σ : Type} (bc : Bcrypt) (pool : Pool σ) (secret : String)
    (issued : Int) (db : σ) (req : Request) (c : SetCookie)
    (hc : c ∈ (login bc pool secret issued db req).setCookies)
    (req2 : Request) (h2 : req2.cookies.lookup "auth_token" = some c.value) (t : Int) :
    ∃ uid,
      (t / 1000 < issued / 1000 + 3600 →
        verifyToken secret t req2 = .next { req2 with userId := some uid }) ∧
      (issued / 1000 + 3600 ≤ t / 1000 →
        verifyToken secret t req2
          = .responded { status := 401, body := .error "Unauthorized", setCookies := [] }) ∧
      (t ≤ issued + 3599000 →
        verifyToken secret t req2 = .next { req2 with userId := some uid }) ∧
      (issued + 3600000 ≤ t →
        verifyToken secret t req2
          = .responded { status := 401, body := .error "Unauthorized", setCookies := [] }) := by
  obtain ⟨uid, rfl⟩ := login_cookie bc pool secret issued db req c hc
  have hv := verifyToken_signed secret issued t uid req2 h2
  refine ⟨uid, ?_, ?_, ?_, ?_⟩
  · intro ht
    rw [hv, if_pos ht]
  · intro ht
    rw [hv, if_neg (by omega)]
  · intro ht
    rw [hv, if_pos (by omega)]
  · intro ht
    rw [hv, if_neg (by omega)]

/-- C4, instance: the token `alice` receives at 999 ms is accepted 59 minutes
later and rejected 61 minutes later. -/
theorem session_token_lifetime_witness :
    authCookie (jwtSign 1 "secret" 999)
        ∈ (login plainBcrypt usersPool "secret" 999 [aliceRow]
            (loginRequest "alice" "pw1")).setCookies ∧
      ∃ uid,
        verifyToken "secret" (999 + 59 * 60000)
            (feedRequest [("auth_token", jwtSign 1 "secret" 999)] none)
          = .next { feedRequest [("auth_token", jwtSign 1 "secret" 999)] none with
                    userId := some uid } ∧
        verifyToken "secret" (999 + 61 * 60000)
            (feedRequest [("auth_token", jwtSign 1 "secret" 999)] none)
          = .responded { status := 401, body := .error "Unauthorized", setCookies := [] } :=
  ⟨by decide,
   (session_token_lifetime plainBcrypt usersPool "secret" 999 [aliceRow]
      (loginRequest "alice" "pw1")
      (authCookie (jwtSign 1 "secret" 999)) (by decide)
      (feedRequest [("auth_token", jwtSign 1 "secret" 999)] none) rfl (999 + 59 * 60000)).elim
    (fun uid h => ⟨uid, h.2.2.1 (by decide), by decide⟩)⟩

/-- C4, as stated, fails: a token issued by the login handler at 999 ms is
rejected at 3600000 ms, which is before 999 ms plus one hour. -/
theorem session_token_early_rejection :
    authCookie (jwtSign 1 "secret" 999)
        ∈ (login plainBcrypt usersPool "secret" 999 [aliceRow]
            (loginRequest "alice" "pw1")).setCookies ∧
      (3600000 : Int) < 999 + 3600000 ∧
      verifyToken "secret" 3600000 (feedRequest [("auth_token", jwtSign 1 "secret" 999)] none)
        = .responded { status := 401, body := .error "Unauthorized", setCookies := [] } := by
  decide

/-! ## Registration -/

/-- An insertion into the users table fails with the duplicate-key error
when some row holds the username or the email. -/
theorem insertUser_taken (rows : List User) (u e : String) (hash : PasswordHash)
    (hany : rows.any (fun r => decide (r.username = u) || decide (r.email = e)) = true) :
    usersPool.insertUser rows (some u) hash (some e)
      = .error { message := "Duplicate entry", code := some "ER_DUP_ENTRY" } := by
  simp only [usersPool, hany, if_true]

/-- An insertion into the users table with a username or an email that a row
already holds fails with the duplicate-key error. -/
theorem insertUser_duplicate (rows : List User) (u e : String) (hash : PasswordHash)
    (hdup : (∃ r ∈ rows, r.username = u) ∨ (∃ r ∈ rows, r.email = e)) :
    usersPool.insertUser rows (some u) hash (some e)
      = .error { message := "Duplicate entry", code := some "ER_DUP_ENTRY" } := by
  apply insertUser_taken
  rw [List.any_eq_true]
  rcases hdup with ⟨r, hr, h⟩ | ⟨r, hr, h⟩
  · exact ⟨r, hr, by simp [h]⟩
  · exact ⟨r, hr, by simp [h]⟩

/-- C5: the register handler answers 201 exactly when the password is hashed
and the insertion succeeds, 409 exactly when the insertion fails with the code
`ER_DUP_ENTRY`, and 500 (store unchanged) on every other failure; and over the
users table, a registration whose username is already held by a row, whatever
its email, or whose email is already held by a row, whatever its username, is
answered 409 and leaves the table unchanged. -/
theorem register_outcomes {σ : Type} (bc : Bcrypt) (pool : Pool σ) (salt : Nat) (db : σ)
    (req : Request) :
    ((register bc pool salt db req).1.status = 201 ↔
      ∃ hash db2, bcryptHash bc req.body.password 10 salt = .ok hash ∧
        pool.insertUser db req.body.username hash req.body.email = .ok db2) ∧
    ((register bc pool salt db req).1.status = 409 ↔
      ∃ hash e, bcryptHash bc req.body.password 10 salt = .ok hash ∧
        pool.insertUser db req.body.username hash req.body.email = .error e ∧
        e.code = some "ER_DUP_ENTRY") ∧
    (∀ e, (bcryptHash bc req.body.password 10 salt = .error e ∨
          ∃ hash, bcryptHash bc req.body.password 10 salt = .ok hash ∧
            pool.insertUser db req.body.username hash req.body.email = .error e) →
        e.code ≠ some "ER_DUP_ENTRY" →
        register bc pool salt db req = (internalError, db)) ∧
    (∀ (rows : List User) (u p e : String) (reg : Request),
        reg.body = { username := some u, password := some p, email := some e } →
        ((∃ r ∈ rows, r.username = u) ∨ (∃ r ∈ rows, r.email = e)) →
        register bc usersPool salt rows reg
          = ({ status := 409, body := .error "Username or email already exists",
               setCookies := [] }, rows)) := by
  refine ⟨?_, ?_, ?_, ?_⟩
  · cases hh : bcryptHash bc req.body.password 10 salt with
    | error e =>
      have : (registerCatch e).status ≠ 201 := by
        unfold registerCatch internalError
        split_ifs <;> simp
      simp [register, hh, this]
    | ok hash =>
      cases hi : pool.insertUser db req.body.username hash req.body.email with
      | error e =>
        have : (registerCatch e).status ≠ 201 := by
          unfold registerCatch internalError
          split_ifs <;> simp
        simp [register, hh, hi, this]
      | ok db2 => simp [register, hh, hi]
  · cases hh : bcryptHash bc req.body.password 10 salt with
    | error e =>
      have hnone : e.code = none := by
        unfold bcryptHash at hh
        cases hp : req.body.password with
        | none =>
          rw [hp] at hh
          simp only [Except.error.injEq] at hh
          rw [← hh]
        | some p =>
          rw [hp] at hh
          simp at hh
      simp [register, hh, registerCatch, internalError, hnone]
    | ok hash =>
      cases hi : pool.insertUser db req.body.username hash req.body.email with
      | error e =>
        by_cases hcode : e.code = some "ER_DUP_ENTRY"
        · simp [register, hh, hi, registerCatch, hcode]
        · simp [register, hh, hi, registerCatch, internalError, hcode]
      | ok db2 => simp [register, hh, hi]
  · rintro e (hh | ⟨hash, hh, hi⟩) hcode
    · simp [register, hh, registerCatch, hcode]
    · simp [register, hh, hi, registerCatch, hcode]
  · intro rows u p e reg hbody hdup
    have hi := insertUser_duplicate rows u e (.bcrypt 10 salt (bc.digest 10 salt (key72 p))) hdup
    simp [register, hbody, bcryptHash, hi, registerCatch]

/-- C5, instances: over a table holding `alice`, a registration as `alice`
with another email and one with the email of `alice` under another username
are answered 409 and leave the table as it was. -/
theorem register_outcomes_witness :
    register plainBcrypt usersPool 7 [aliceRow] (registerRequest "alice" "pw2" "b@x.com")
        = ({ status := 409, body := .error "Username or email already exists",
             setCookies := [] }, [aliceRow]) ∧
      register plainBcrypt usersPool 7 [aliceRow] (registerRequest "bob" "pw2" "a@x.com")
        = ({ status := 409, body := .error "Username or email already exists",
             setCookies := [] }, [aliceRow]) :=
  ⟨(register_outcomes plainBcrypt usersPool 7 [aliceRow] emptyRequest).2.2.2 [aliceRow] "alice"
      "pw2" "b@x.com" (registerRequest "alice" "pw2" "b@x.com") rfl
      (Or.inl ⟨aliceRow, List.mem_singleton.mpr rfl, rfl⟩),
   (register_outcomes plainBcrypt usersPool 7 [aliceRow] emptyRequest).2.2.2 [aliceRow] "bob" "pw2"
      "a@x.com" (registerRequest "bob" "pw2" "a@x.com") rfl
      (Or.inr ⟨aliceRow, List.mem_singleton.mpr rfl, rfl⟩)⟩

/-- C8: for every authenticated `/soil` request, whatever its `crop`
parameter, and whatever values in [0,1) the random generator returns, the
response is 200 with `nutrients` equal to Nitrogen, Phosphorus, Potassium, pH,
Organic Matter in that order and `levels` of length 5, the level at index 3
(pH) in [0,14] and every other level in [0,100]. -/
theorem soil_levels (secret : String) (now : Int) (env : Env) (req req2 : Request)
    (hauth : verifyToken secret now req = .next req2)
    (hrand : ∀ k, 0 ≤ env.random k ∧ env.random k < 1) :
    ∃ levels,
      guarded .soil secret now env req
        = { status := 200,
            body := .soil ["Nitrogen", "Phosphorus", "Potassium", "pH", "Organic Matter"] levels,
            setCookies := [] } ∧
      levels.length = 5 ∧
      (∀ l, levels[3]? = some l → 0 ≤ l ∧ l ≤ 14) ∧
      (∀ i l, i ≠ 3 → levels[i]? = some l → 0 ≤ l ∧ l ≤ 100) := by
  obtain ⟨hg, -⟩ := guarded_of_next .soil secret now env req req2 hauth
  obtain ⟨a0, b0⟩ := hrand 0
  obtain ⟨a1, b1⟩ := hrand 1
  obtain ⟨a2, b2⟩ := hrand 2
  obtain ⟨a3, b3⟩ := hrand 3
  obtain ⟨a4, b4⟩ := hrand 4
  refine ⟨[env.random 0 * 100, env.random 1 * 100, env.random 2 * 100, env.random 3 * 14,
    env.random 4 * 10], ?_, rfl, ?_, ?_⟩
  · rw [hg]
    rfl
  · intro l hl
    simp only [List.getElem?_cons_succ, List.getElem?_cons_zero, Option.some.injEq] at hl
    subst hl
    constructor <;> linarith
  · intro i l hi hl
    match i, hi, hl with
    | 0, _, hl =>
      simp only [List.getElem?_cons_zero, Option.some.injEq] at hl
      subst hl
      constructor <;> linarith
    | 1, _, hl =>
      simp only [List.getElem?_cons_succ, List.getElem?_cons_zero, Option.some.injEq] at hl
      subst hl
      constructor <;> linarith
    | 2, _, hl =>
      simp only [List.getElem?_cons_succ, List.getElem?_cons_zero, Option.some.injEq] at hl
      subst hl
      constructor <;> linarith
    | 3, hi, _ => exact absurd rfl hi
    | 4, _, hl =>
      simp only [List.getElem?_cons_succ, List.getElem?_cons_zero, Option.some.injEq] at hl
      subst hl
      constructor <;> linarith
    | k + 5, _, hl => simp at hl

/-- C8, instance: an authenticated request while every draw is one half. -/
theorem soil_levels_witness :
    ∃ levels,
      guarded .soil "secret" 0 stillEnv (feedRequest [("auth_token", jwtSign 1 "secret" 0)] none)
        = { status := 200,
            body := .soil ["Nitrogen", "Phosphorus", "Potassium", "pH", "Organic Matter"] levels,
            setCookies := [] } ∧
      levels.length = 5 ∧
      (∀ l, levels[3]? = some l → 0 ≤ l ∧ l ≤ 14) ∧
      (∀ i l, i ≠ 3 → levels[i]? = some l → 0 ≤ l ∧ l ≤ 100) :=
  soil_levels "secret" 0 stillEnv (feedRequest [("auth_token", jwtSign 1 "secret" 0)] none)
    { feedRequest [("auth_token", jwtSign 1 "secret" 0)] none with userId := some 1 }
    (by decide) (fun _ => by norm_num [stillEnv])

/-! ## Logout -/

theorem lookup_filter_ne (name : String) (jar : List (String × CookieValue)) :
    (jar.filter (fun kv => decide (kv.1 ≠ name))).lookup name = none := by
  induction jar with
  | nil => rfl
  | cons kv rest ih =>
    obtain ⟨k, v⟩ := kv
    by_cases h : k = name
    · rw [List.filter_cons_of_neg (by simp [h])]
      exact ih
    · have hb : (name == k) = false := by
        simp only [beq_eq_false_iff_ne, ne_eq]
        exact fun hn => h hn.symm
      rw [List.filter_cons_of_pos (by simp [h])]
      simp only [List.lookup_cons, hb]
      exact ih

/-- C9: the logout handler always answers 200 with a message, clears the
`auth_token` cookie and leaves the store as it was; and whatever cookies a
client held, once it has received that response (its clock reading at least
one millisecond after the epoch), its next request to any guarded route carries
no `auth_token` cookie and is answered 403 `No token provided` by
`verifyToken`, the data handler not being called. -/
theorem logout_then_denied {σ : Type} (bc : Bcrypt) (pool : Pool σ) (secret : String)
    (now : Int) (salt : Nat) (env : Env) (db : σ) (ep : Endpoint) (clientNow : Int)
    (hclock : 1 ≤ clientNow)
    (jar : List (String × CookieValue)) (req0 req : Request)
    (hjar : req.cookies = receive clientNow jar (logout req0)) :
    serve bc pool secret now salt env .logout db req0
        = ({ status := 200, body := .message "Logged out successfully",
             setCookies := [clearCookie "auth_token"] }, db) ∧
      req.cookies.lookup "auth_token" = none ∧
      verifyToken secret now req
        = .responded { status := 403, body := .error "No token provided", setCookies := [] } ∧
      guarded ep secret now env req
        = { status := 403, body := .error "No token provided", setCookies := [] } := by
  have hexp : expiredAt clientNow (clearCookie "auth_token") = true := by
    simp [expiredAt, clearCookie, hclock]
  have hl : req.cookies.lookup "auth_token" = none := by
    rw [hjar]
    simp only [receive, logout, List.foldl_cons, List.foldl_nil, storeCookie, hexp, if_true]
    exact lookup_filter_ne "auth_token" jar
  refine ⟨rfl, hl, ?_, ?_⟩
  · simp [verifyToken, hl]
  · simp [guarded, verifyToken, hl]

/-- C9, instance: a client holding a session cookie logs out and then asks
for the market prices. -/
theorem logout_then_denied_witness :
    (1 : Int) ≤ 1000 ∧
      receive 1000 [("auth_token", jwtSign 1 "secret" 0)] (logout emptyRequest) = [] ∧
      guarded .marketPrices "secret" 2000 stillEnv (feedRequest [] none)
        = { status := 403, body := .error "No token provided", setCookies := [] } :=
  ⟨by decide, by decide,
   (logout_then_denied plainBcrypt usersPool "secret" 2000 7 stillEnv [aliceRow] .marketPrices 1000
      (by decide) [("auth_token", jwtSign 1 "secret" 0)] emptyRequest (feedRequest [] none)
      (by decide)).2.2.2⟩

/-! ## Failures inside the feeds -/

end Agriinsight
